import Mathlib

/-!
Shallow embedding of the HUSH backend (`main.py`): a FastAPI service with a
FedAvg-style update handler over three scalar feature weights, an append-only
SQLite snapshot table, a bootstrap routine seeding three rows, and a dashboard
query returning all rows ordered by timestamp.

Floats are modelled as rationals, the process-wide globals as an explicit
state record, the SQLite table as a list of rows in insertion order, the
Laplace noise draws and the wall-clock timestamp as explicit parameters, and
a fallible store commit as a boolean outcome.
-/

namespace HUSH

/-- Row of the `DashboardDataPoint` table (`main.py` lines 28-33): a
store-assigned id, an ISO-8601 timestamp string and the three averages. -/
structure DashboardDataPoint where
  id : Nat
  timestamp : String
  avg_text_importance : ℚ
  avg_typing_importance : ℚ
  avg_voice_importance : ℚ
deriving DecidableEq

/-- Request body of `POST /v1/submit-update` (`ModelUpdatePayload`,
`main.py` lines 13-15): a feature-name-to-float mapping and a user id.
The Python dict is modelled as an association list with first-match lookup. -/
structure ModelUpdatePayload where
  feature_attributions : List (String × ℚ)
  user_id : String
deriving DecidableEq

/-- One request's three Laplace noise draws (`np.random.laplace(0, scale)` at
`main.py` lines 110-112), passed in explicitly since the draws are random. -/
structure Noise where
  text : ℚ
  typing : ℚ
  voice : ℚ
deriving DecidableEq

/-- The process-wide mutable globals (`main.py` lines 36-37):
`global_model_weights` (three running averages) and `global_update_count`. -/
structure AggState where
  text : ℚ
  typing : ℚ
  voice : ℚ
  update_count : ℤ
deriving DecidableEq

/-- Initial value of the globals at process start (`main.py` lines 36-37). -/
def initAgg : AggState :=
  { text := 0.33, typing := 0.33, voice := 0.34, update_count := 0 }

/-- Python's `dict.get(key, 0)` on the modelled attribution mapping. -/
def dictGet (d : List (String × ℚ)) (k : String) : ℚ :=
  (d.lookup k).getD 0

/-- Everything `submit_model_update` produces besides the store write: the new
value of the globals, the row it builds, the response status string and the
log line (`main.py` lines 136-137). -/
structure UpdateResult where
  state : AggState
  row : DashboardDataPoint
  status : String
  log : String
deriving DecidableEq

/-- The handler of `POST /v1/submit-update` (`main.py` lines 102-137) up to
the store write: adds noise to each looked-up contribution, folds it into the
running averages with `total = global_update_count + 1` after the
`max(1, global_update_count)` clamp, sets the count to `total`, and builds the
new snapshot row stamped with the wall clock `now`. -/
def submit_model_update (payload : ModelUpdatePayload) (nz : Noise) (now : String)
    (g : AggState) (store : List DashboardDataPoint) : UpdateResult :=
  let noisy_text := dictGet payload.feature_attributions "text" + nz.text
  let noisy_typing := dictGet payload.feature_attributions "typing" + nz.typing
  let noisy_voice := dictGet payload.feature_attributions "voice" + nz.voice
  let total : ℤ := g.update_count + 1
  let g1 : AggState := { g with update_count := max 1 g.update_count }
  let wText := (g1.text * ((total : ℚ) - 1) + noisy_text) / (total : ℚ)
  let wTyping := (g1.typing * ((total : ℚ) - 1) + noisy_typing) / (total : ℚ)
  let wVoice := (g1.voice * ((total : ℚ) - 1) + noisy_voice) / (total : ℚ)
  let g2 : AggState := { text := wText, typing := wTyping, voice := wVoice,
                         update_count := total }
  let row : DashboardDataPoint :=
    { id := store.length + 1, timestamp := now,
      avg_text_importance := wText,
      avg_typing_importance := wTyping,
      avg_voice_importance := wVoice }
  { state := g2, row := row,
    status := "update received and saved",
    log := "Processed and saved update from " ++ payload.user_id }

/-- The same handler with the `global_update_count = max(1, global_update_count)`
clamp of `main.py` line 118 removed, for comparison. -/
def submit_model_update_noGuard (payload : ModelUpdatePayload) (nz : Noise) (now : String)
    (g : AggState) (store : List DashboardDataPoint) : UpdateResult :=
  let noisy_text := dictGet payload.feature_attributions "text" + nz.text
  let noisy_typing := dictGet payload.feature_attributions "typing" + nz.typing
  let noisy_voice := dictGet payload.feature_attributions "voice" + nz.voice
  let total : ℤ := g.update_count + 1
  let wText := (g.text * ((total : ℚ) - 1) + noisy_text) / (total : ℚ)
  let wTyping := (g.typing * ((total : ℚ) - 1) + noisy_typing) / (total : ℚ)
  let wVoice := (g.voice * ((total : ℚ) - 1) + noisy_voice) / (total : ℚ)
  let g2 : AggState := { text := wText, typing := wTyping, voice := wVoice,
                         update_count := total }
  let row : DashboardDataPoint :=
    { id := store.length + 1, timestamp := now,
      avg_text_importance := wText,
      avg_typing_importance := wTyping,
      avg_voice_importance := wVoice }
  { state := g2, row := row,
    status := "update received and saved",
    log := "Processed and saved update from " ++ payload.user_id }

/-- Outcome of one whole `POST /v1/submit-update` request including the store
commit: the globals after the request, the store after the request, and the
response (`none` when the commit raised and the framework answered 500). -/
structure RequestOutcome where
  state : AggState
  store : List DashboardDataPoint
  response : Option (String × DashboardDataPoint)
deriving DecidableEq

/-- One whole `POST /v1/submit-update` request with an explicit commit outcome.
In `main.py` the globals are mutated (lines 115-122) before `session.add` and
`session.commit` (lines 132-133); when the commit fails the transaction is
rolled back so no row becomes visible, but the global mutation stands. -/
def processUpdate (payload : ModelUpdatePayload) (nz : Noise) (now : String)
    (writeOk : Bool) (g : AggState) (store : List DashboardDataPoint) :
    RequestOutcome :=
  let r := submit_model_update payload nz now g store
  if writeOk then
    { state := r.state, store := store ++ [r.row], response := some (r.status, r.row) }
  else
    { state := r.state, store := store, response := none }

/-- The three seed rows inserted by the lifespan bootstrap
(`main.py` lines 62-66), with the store-assigned ids 1, 2, 3 they get when
inserted into the empty table. -/
def seedRows : List DashboardDataPoint :=
  [ { id := 1, timestamp := "2025-11-01T10:00:00Z",
      avg_text_importance := 0.4, avg_typing_importance := 0.4,
      avg_voice_importance := 0.2 },
    { id := 2, timestamp := "2025-11-01T11:00:00Z",
      avg_text_importance := 0.42, avg_typing_importance := 0.38,
      avg_voice_importance := 0.2 },
    { id := 3, timestamp := "2025-11-01T12:00:00Z",
      avg_text_importance := 0.38, avg_typing_importance := 0.45,
      avg_voice_importance := 0.17 } ]

/-- The lifespan bootstrap (`main.py` lines 59-70): if the table has no first
row it inserts the three seed rows, otherwise it does nothing. -/
def lifespanBootstrap (store : List DashboardDataPoint) : List DashboardDataPoint :=
  if store.isEmpty then store ++ seedRows else store

/-- Timestamp order on rows: the `ORDER BY timestamp` of `main.py` line 146,
string-lexicographic comparison of the stored timestamp strings. -/
def tsLe (a b : DashboardDataPoint) : Prop :=
  a.timestamp ≤ b.timestamp

instance : DecidableRel tsLe := fun a b =>
  inferInstanceAs (Decidable (a.timestamp ≤ b.timestamp))

instance : IsTotal DashboardDataPoint tsLe :=
  ⟨fun a b => le_total a.timestamp b.timestamp⟩

instance : IsTrans DashboardDataPoint tsLe :=
  ⟨fun _ _ _ hab hbc => le_trans hab hbc⟩

/-- The handler of `GET /v1/dashboard-data` (`main.py` lines 141-148): all
rows of the table sorted ascending by timestamp, returned verbatim. -/
def get_dashboard_data (store : List DashboardDataPoint) : List DashboardDataPoint :=
  List.insertionSort tsLe store

/-- The whole observable server state: the globals and the store. -/
structure SysState where
  agg : AggState
  store : List DashboardDataPoint
deriving DecidableEq

/-- Server state at process start over an empty store file. -/
def initSys : SysState := { agg := initAgg, store := [] }

/-- One externally triggered operation: the lifespan bootstrap, one
submit-update request (with its payload, noise draws, wall clock and commit
outcome), or one dashboard query. -/
inductive Op where
  | boot : Op
  | upd : ModelUpdatePayload → Noise → String → Bool → Op
  | query : Op
deriving DecidableEq

/-- Effect of one operation on the server state; the dashboard query reads
the store without changing anything. -/
def step (s : SysState) : Op → SysState
  | .boot => { s with store := lifespanBootstrap s.store }
  | .upd p nz now ok =>
      let r := processUpdate p nz now ok s.agg s.store
      { agg := r.state, store := r.store }
  | .query => s

/-- Running a sequence of operations from a state. -/
def runOps (s : SysState) : List Op → SysState
  | [] => s
  | op :: ops => runOps (step s op) ops

/-- Whether an operation is an accepted (committed) submit-update request. -/
def isAcceptedUpd : Op → Bool
  | .upd _ _ _ ok => ok
  | _ => false

/-- The zero noise draw, for the spec's noise-mocked-to-0 scenarios. -/
def zeroNoise : Noise := { text := 0, typing := 0, voice := 0 }

/-- A run the code permits: bootstrap, then one accepted update whose wall
clock (`datetime.now().isoformat()`, naive local time with microseconds and no
timezone suffix) reads 10:30 on the seed rows' date, so its timestamp string
sorts between the first and second seed rows. -/
def cexOps : List Op :=
  [ Op.boot,
    Op.upd ⟨[("text", 1)], "u"⟩ zeroNoise "2025-11-01T10:30:00.000001" true ]

/-- A run has a monotone clock when each update's wall-clock timestamp string
is lexicographically at least every timestamp already in the store at the
moment the update runs. -/
def monoOpsB : SysState → List Op → Bool
  | _, [] => true
  | s, Op.boot :: ops => monoOpsB (step s Op.boot) ops
  | s, Op.query :: ops => monoOpsB (step s Op.query) ops
  | s, Op.upd p nz now ok :: ops =>
      (s.store.all fun x => decide (x.timestamp ≤ now))
        && monoOpsB (step s (Op.upd p nz now ok)) ops

/-- Every operation only ever appends to the store: the prior store is a
prefix of the store after the step. -/
theorem step_extends_store (s : SysState) (op : Op) : s.store <+: (step s op).store := by
  cases op with
  | boot =>
      by_cases h : s.store.isEmpty
      · simp [step, lifespanBootstrap, h]
      · simp [step, lifespanBootstrap, h]
  | upd p nz now ok =>
      cases ok with
      | false => exact List.prefix_refl _
      | true => simp [step, processUpdate]
  | query => exact List.prefix_refl _

/-- The row count never decreases along any run. -/
theorem runOps_store_length_mono (s : SysState) (ops : List Op) :
    s.store.length ≤ (runOps s ops).store.length := by
  induction ops generalizing s with
  | nil => exact le_refl _
  | cons op ops ih =>
      exact le_trans (step_extends_store s op).length_le (ih (step s op))

/-- A run of accepted updates appends exactly one row per update. -/
theorem runOps_accepted_length (s : SysState) (ops : List Op)
    (h : ops.all isAcceptedUpd = true) :
    (runOps s ops).store.length = s.store.length + ops.length := by
  induction ops generalizing s with
  | nil => rfl
  | cons op ops ih =>
      rw [List.all_cons, Bool.and_eq_true] at h
      cases op with
      | boot => simp [isAcceptedUpd] at h
      | query => simp [isAcceptedUpd] at h
      | upd p nz now ok =>
          have hok : ok = true := h.1
          subst hok
          rw [runOps, ih _ h.2]
          simp [step, processUpdate]
          omega

/-- Appending one row that is at least every stored row keeps the store
sorted by timestamp. -/
theorem sorted_append_singleton (l : List DashboardDataPoint) (a : DashboardDataPoint)
    (hs : List.Sorted tsLe l) (h : ∀ x ∈ l, tsLe x a) :
    List.Sorted tsLe (l ++ [a]) := by
  rw [List.Sorted, List.pairwise_append]
  refine ⟨hs, List.pairwise_singleton _ _, fun x hx b hb => ?_⟩
  simp only [List.mem_singleton] at hb
  subst hb
  exact h x hx

/-- The three seed rows are already in timestamp order. -/
theorem seedRows_sorted : List.Sorted tsLe seedRows := by
  with_unfolding_all decide

/-- The bootstrap step preserves timestamp-sortedness of the store. -/
theorem step_preserves_sorted_boot (s : SysState)
    (hs : List.Sorted tsLe s.store) :
    List.Sorted tsLe (step s Op.boot).store := by
  by_cases h : s.store.isEmpty
  · have he : s.store = [] := List.isEmpty_iff.mp h
    simp [step, lifespanBootstrap, h, he, seedRows_sorted]
  · simpa [step, lifespanBootstrap, h] using hs

/-- C1: the update handler folds each noisy feature value into the running
average by the exact incremental-mean formula `(old * (n - 1) + noisy) / n`
with `n = update_count + 1`; with noise fixed to 0, from a fresh process
start an update contributing `a` yields average `a` (discarding the hardcoded
initial weight) and a second update contributing `b` yields `(a + b) / 2`. -/
theorem submit_update_incremental_mean :
    (∀ (p : ModelUpdatePayload) (nz : Noise) (now : String) (g : AggState)
        (store : List DashboardDataPoint),
      (submit_model_update p nz now g store).state.text
          = (g.text * (((g.update_count + 1 : ℤ) : ℚ) - 1)
              + (dictGet p.feature_attributions "text" + nz.text))
            / ((g.update_count + 1 : ℤ) : ℚ) ∧
      (submit_model_update p nz now g store).state.typing
          = (g.typing * (((g.update_count + 1 : ℤ) : ℚ) - 1)
              + (dictGet p.feature_attributions "typing" + nz.typing))
            / ((g.update_count + 1 : ℤ) : ℚ) ∧
      (submit_model_update p nz now g store).state.voice
          = (g.voice * (((g.update_count + 1 : ℤ) : ℚ) - 1)
              + (dictGet p.feature_attributions "voice" + nz.voice))
            / ((g.update_count + 1 : ℤ) : ℚ)) ∧
    (∀ (a b : ℚ) (u1 u2 now1 now2 : String)
        (store1 store2 : List DashboardDataPoint),
      (submit_model_update ⟨[("text", a)], u1⟩ zeroNoise now1 initAgg store1).state.text = a ∧
      (submit_model_update ⟨[("text", b)], u2⟩ zeroNoise now2
          (submit_model_update ⟨[("text", a)], u1⟩ zeroNoise now1 initAgg store1).state
          store2).state.text = (a + b) / 2) := by
  refine ⟨fun p nz now g store => ⟨rfl, rfl, rfl⟩, ?_⟩
  intro a b u1 u2 now1 now2 store1 store2
  constructor
  · norm_num [submit_model_update, dictGet, initAgg, zeroNoise]
  · norm_num [submit_model_update, dictGet, initAgg, zeroNoise]

/-- C2 counterexample: a submit-update request whose store write fails leaves
no row and returns no response, yet the in-memory aggregation state has
changed — the request is not fully atomic as claimed. -/
theorem submit_failure_mutates_memory_cex :
    (processUpdate ⟨[("text", 1)], "u"⟩ zeroNoise "2025-11-02T00:00:00.000000"
        false initAgg []).store = [] ∧
    (processUpdate ⟨[("text", 1)], "u"⟩ zeroNoise "2025-11-02T00:00:00.000000"
        false initAgg []).response = none ∧
    (processUpdate ⟨[("text", 1)], "u"⟩ zeroNoise "2025-11-02T00:00:00.000000"
        false initAgg []).state ≠ initAgg := by
  with_unfolding_all decide

/-- C2 (amended): each request is atomic with respect to the store — on a
successful commit exactly one row is appended and returned, and on a failed
commit no row is visible — but the in-memory aggregation state is mutated
before the write, so after a failed commit it still holds the folded weights
and the incremented update count. -/
theorem request_atomic_for_store_not_memory (p : ModelUpdatePayload) (nz : Noise)
    (now : String) (g : AggState) (store : List DashboardDataPoint) :
    (processUpdate p nz now true g store).store
        = store ++ [(submit_model_update p nz now g store).row] ∧
    (processUpdate p nz now true g store).response
        = some ((submit_model_update p nz now g store).status,
                (submit_model_update p nz now g store).row) ∧
    (processUpdate p nz now false g store).store = store ∧
    (processUpdate p nz now false g store).response = none ∧
    (processUpdate p nz now false g store).state
        = (submit_model_update p nz now g store).state ∧
    (processUpdate p nz now false g store).state.update_count = g.update_count + 1 :=
  ⟨rfl, rfl, rfl, rfl, rfl, rfl⟩

/-- C3 counterexample: after bootstrap, an accepted update whose wall clock
reads `2025-11-01T10:30:00.000001` (the format `datetime.now().isoformat()`
produces) yields a reachable store that is not sorted by its timestamp
strings, so string-lexicographic order does not coincide with insertion
order. -/
theorem timestamps_lex_order_cex :
    (¬ List.Sorted tsLe (runOps initSys cexOps).store) ∧
    get_dashboard_data (runOps initSys cexOps).store ≠ (runOps initSys cexOps).store := by
  with_unfolding_all decide

/-- C3 (amended): string-lexicographic order on the stored timestamps
coincides with insertion order only under a monotone clock — when every
update's timestamp string is at least every timestamp already stored.  Under
that hypothesis the store stays sorted and the dashboard query returns it
unchanged; without it the coincidence can fail, since seed and update
timestamps do not share a format or timezone. -/
theorem timestamps_sorted_of_monotone_clock (s : SysState) (ops : List Op)
    (hs : List.Sorted tsLe s.store) (h : monoOpsB s ops = true) :
    List.Sorted tsLe (runOps s ops).store ∧
    get_dashboard_data (runOps s ops).store = (runOps s ops).store := by
  suffices hsort : List.Sorted tsLe (runOps s ops).store from
    ⟨hsort, hsort.insertionSort_eq⟩
  induction ops generalizing s with
  | nil => exact hs
  | cons op ops ih =>
      cases op with
      | boot =>
          rw [monoOpsB] at h
          exact ih _ (step_preserves_sorted_boot s hs) h
      | query =>
          rw [monoOpsB] at h
          exact ih _ hs h
      | upd p nz now ok =>
          rw [monoOpsB, Bool.and_eq_true] at h
          refine ih _ ?_ h.2
          cases ok with
          | false => exact hs
          | true =>
              have hle : ∀ x ∈ s.store, x.timestamp ≤ now := by
                intro x hx
                exact of_decide_eq_true (List.all_eq_true.mp h.1 x hx)
              simpa [step, processUpdate] using
                sorted_append_singleton s.store
                  (submit_model_update p nz now s.agg s.store).row hs hle

/-- C3 witness: a concrete monotone-clock run — bootstrap, one accepted
update stamped after the seed rows, one query — whose store is sorted and
returned unchanged by the dashboard query. -/
theorem timestamps_sorted_of_monotone_clock_witness :
    List.Sorted tsLe initSys.store ∧
    (monoOpsB initSys
      [ Op.boot,
        Op.upd ⟨[("text", 1)], "u"⟩ zeroNoise "2025-11-01T13:00:00" true,
        Op.query ] = true) ∧
    (List.Sorted tsLe (runOps initSys
        [ Op.boot,
          Op.upd ⟨[("text", 1)], "u"⟩ zeroNoise "2025-11-01T13:00:00" true,
          Op.query ]).store ∧
      get_dashboard_data (runOps initSys
        [ Op.boot,
          Op.upd ⟨[("text", 1)], "u"⟩ zeroNoise "2025-11-01T13:00:00" true,
          Op.query ]).store
        = (runOps initSys
        [ Op.boot,
          Op.upd ⟨[("text", 1)], "u"⟩ zeroNoise "2025-11-01T13:00:00" true,
          Op.query ]).store) :=
  ⟨List.sorted_nil, by with_unfolding_all decide,
   timestamps_sorted_of_monotone_clock initSys _ List.sorted_nil
     (by with_unfolding_all decide)⟩

/-- C4: the `max(1, global_update_count)` clamp is dead code — for every
state with a non-negative update count (every reachable one), the handler
with the clamp produces the same result, weights, count, snapshot row and
response included, as the handler without it. -/
theorem clamp_guard_dead_code (g : AggState) (_h : 0 ≤ g.update_count)
    (p : ModelUpdatePayload) (nz : Noise) (now : String)
    (store : List DashboardDataPoint) :
    submit_model_update p nz now g store
      = submit_model_update_noGuard p nz now g store := rfl

/-- C4 witness: the clamped and unclamped handlers agree at the initial
state on a concrete payload. -/
theorem clamp_guard_dead_code_witness :
    0 ≤ initAgg.update_count ∧
    submit_model_update ⟨[("text", 1)], "u"⟩ zeroNoise "t" initAgg []
      = submit_model_update_noGuard ⟨[("text", 1)], "u"⟩ zeroNoise "t" initAgg [] :=
  ⟨by norm_num [initAgg],
   clamp_guard_dead_code initAgg (by norm_num [initAgg]) ⟨[("text", 1)], "u"⟩ zeroNoise "t" []⟩

/-- C5: the bootstrap inserts exactly the three literal seed rows if and only
if the store is empty — on an empty store exactly those three rows result,
and on a non-empty store nothing is inserted. -/
theorem bootstrap_seeds_iff_empty :
    lifespanBootstrap []
      = [ { id := 1, timestamp := "2025-11-01T10:00:00Z",
            avg_text_importance := 0.4, avg_typing_importance := 0.4,
            avg_voice_importance := 0.2 },
          { id := 2, timestamp := "2025-11-01T11:00:00Z",
            avg_text_importance := 0.42, avg_typing_importance := 0.38,
            avg_voice_importance := 0.2 },
          { id := 3, timestamp := "2025-11-01T12:00:00Z",
            avg_text_importance := 0.38, avg_typing_importance := 0.45,
            avg_voice_importance := 0.17 } ] ∧
    ∀ store : List DashboardDataPoint, store ≠ [] → lifespanBootstrap store = store := by
  refine ⟨rfl, fun store h => ?_⟩
  rw [lifespanBootstrap, if_neg]
  simpa [List.isEmpty_iff] using h

/-- C5 witness: bootstrap on a concrete one-row store inserts nothing. -/
theorem bootstrap_seeds_iff_empty_witness :
    ([ { id := 7, timestamp := "t", avg_text_importance := 1,
         avg_typing_importance := 2, avg_voice_importance := 3 } ]
       ≠ ([] : List DashboardDataPoint)) ∧
    lifespanBootstrap
        [ { id := 7, timestamp := "t", avg_text_importance := 1,
            avg_typing_importance := 2, avg_voice_importance := 3 } ]
      = [ { id := 7, timestamp := "t", avg_text_importance := 1,
            avg_typing_importance := 2, avg_voice_importance := 3 } ] :=
  ⟨by simp, bootstrap_seeds_iff_empty.2 _ (by simp)⟩

/-- C6: the store is append-only — every operation leaves the prior store as
a prefix of the new one, the row count never decreases along any run, and a
bootstrap on the empty store followed by `k` accepted updates leaves exactly
`3 + k` rows. -/
theorem store_append_only :
    (∀ (s : SysState) (op : Op), s.store <+: (step s op).store) ∧
    (∀ (s : SysState) (ops : List Op),
      s.store.length ≤ (runOps s ops).store.length) ∧
    (∀ ops : List Op, ops.all isAcceptedUpd = true →
      (runOps initSys (Op.boot :: ops)).store.length = 3 + ops.length) := by
  refine ⟨step_extends_store, runOps_store_length_mono, fun ops h => ?_⟩
  rw [runOps, runOps_accepted_length _ _ h]
  rfl

/-- C6 witness: bootstrap plus two concrete accepted updates leaves five
rows. -/
theorem store_append_only_witness :
    ([ Op.upd ⟨[("text", 1)], "u"⟩ zeroNoise "2025-11-01T13:00:00" true,
       Op.upd ⟨[("voice", 1)], "v"⟩ zeroNoise "2025-11-01T14:00:00" true
     ].all isAcceptedUpd = true) ∧
    (runOps initSys
        (Op.boot ::
          [ Op.upd ⟨[("text", 1)], "u"⟩ zeroNoise "2025-11-01T13:00:00" true,
            Op.upd ⟨[("voice", 1)], "v"⟩ zeroNoise "2025-11-01T14:00:00" true
          ])).store.length = 3 + 2 :=
  ⟨rfl,
   store_append_only.2.2
     [ Op.upd ⟨[("text", 1)], "u"⟩ zeroNoise "2025-11-01T13:00:00" true,
       Op.upd ⟨[("voice", 1)], "v"⟩ zeroNoise "2025-11-01T14:00:00" true ] rfl⟩

/-- C7: a known feature whose key is absent from `feature_attributions`
contributes exactly 0 to that update before noise is added: the folded value
for that feature is `(old * (n - 1) + (0 + noise)) / n`. -/
theorem missing_feature_key_contributes_zero
    (p : ModelUpdatePayload) (nz : Noise) (now : String) (g : AggState)
    (store : List DashboardDataPoint) :
    (p.feature_attributions.lookup "text" = none →
      (submit_model_update p nz now g store).state.text
        = (g.text * (((g.update_count + 1 : ℤ) : ℚ) - 1) + (0 + nz.text))
            / ((g.update_count + 1 : ℤ) : ℚ)) ∧
    (p.feature_attributions.lookup "typing" = none →
      (submit_model_update p nz now g store).state.typing
        = (g.typing * (((g.update_count + 1 : ℤ) : ℚ) - 1) + (0 + nz.typing))
            / ((g.update_count + 1 : ℤ) : ℚ)) ∧
    (p.feature_attributions.lookup "voice" = none →
      (submit_model_update p nz now g store).state.voice
        = (g.voice * (((g.update_count + 1 : ℤ) : ℚ) - 1) + (0 + nz.voice))
            / ((g.update_count + 1 : ℤ) : ℚ)) := by
  refine ⟨fun h => ?_, fun h => ?_, fun h => ?_⟩ <;>
    simp [submit_model_update, dictGet, h]

/-- C7 witness: a concrete payload with no `voice` key folds voice as a zero
contribution. -/
theorem missing_feature_key_contributes_zero_witness :
    (([("typing", (1 : ℚ))] : List (String × ℚ)).lookup "voice" = none) ∧
    (submit_model_update ⟨[("typing", 1)], "u"⟩ zeroNoise "t" initAgg []).state.voice
      = (initAgg.voice * (((initAgg.update_count + 1 : ℤ) : ℚ) - 1) + (0 + zeroNoise.voice))
          / ((initAgg.update_count + 1 : ℤ) : ℚ) :=
  ⟨by with_unfolding_all decide,
   (missing_feature_key_contributes_zero ⟨[("typing", 1)], "u"⟩ zeroNoise "t" initAgg []).2.2
     (by with_unfolding_all decide)⟩

/-- C8: the update count starts at 0 at process start and every accepted
update increments it by exactly 1. -/
theorem update_count_starts_zero_and_increments :
    initAgg.update_count = 0 ∧
    (∀ (p : ModelUpdatePayload) (nz : Noise) (now : String) (g : AggState)
        (store : List DashboardDataPoint),
      (submit_model_update p nz now g store).state.update_count = g.update_count + 1) ∧
    (∀ (p : ModelUpdatePayload) (nz : Noise) (now : String) (g : AggState)
        (store : List DashboardDataPoint),
      (processUpdate p nz now true g store).state.update_count = g.update_count + 1) :=
  ⟨rfl, fun _ _ _ _ _ => rfl, fun _ _ _ _ _ => rfl⟩

/-- C9: the dashboard query returns exactly the persisted rows — a
permutation of the store, unmodified — sorted in non-decreasing timestamp
order, with no pagination, filtering or limit; the empty store yields the
empty list. -/
theorem dashboard_returns_all_rows_sorted :
    (∀ store : List DashboardDataPoint,
      (get_dashboard_data store).Perm store ∧
      List.Sorted tsLe (get_dashboard_data store)) ∧
    get_dashboard_data [] = [] :=
  ⟨fun store => ⟨List.perm_insertionSort tsLe store, List.sorted_insertionSort tsLe store⟩,
   rfl⟩

/-- C10: for a fixed prior state and fixed noise draws, the submit-update
result depends only on the values at the keys `text`, `typing` and `voice`:
payloads agreeing on those three lookups — whatever their extra keys or user
ids — produce the same new state, the same row, the same status and the same
store, the user id reaching only the log line. -/
theorem submit_depends_only_on_known_keys
    (a1 a2 : List (String × ℚ)) (u1 u2 : String)
    (ht : a1.lookup "text" = a2.lookup "text")
    (hy : a1.lookup "typing" = a2.lookup "typing")
    (hv : a1.lookup "voice" = a2.lookup "voice")
    (nz : Noise) (now : String) (g : AggState) (store : List DashboardDataPoint) :
    (submit_model_update ⟨a1, u1⟩ nz now g store).state
        = (submit_model_update ⟨a2, u2⟩ nz now g store).state ∧
    (submit_model_update ⟨a1, u1⟩ nz now g store).row
        = (submit_model_update ⟨a2, u2⟩ nz now g store).row ∧
    (submit_model_update ⟨a1, u1⟩ nz now g store).status
        = (submit_model_update ⟨a2, u2⟩ nz now g store).status ∧
    ∀ writeOk : Bool,
      (processUpdate ⟨a1, u1⟩ nz now writeOk g store).store
          = (processUpdate ⟨a2, u2⟩ nz now writeOk g store).store := by
  have et : dictGet a1 "text" = dictGet a2 "text" := by rw [dictGet, dictGet, ht]
  have ey : dictGet a1 "typing" = dictGet a2 "typing" := by rw [dictGet, dictGet, hy]
  have ev : dictGet a1 "voice" = dictGet a2 "voice" := by rw [dictGet, dictGet, hv]
  refine ⟨?_, ?_, rfl, ?_⟩
  · simp [submit_model_update, et, ey, ev]
  · simp [submit_model_update, et, ey, ev]
  · intro writeOk
    cases writeOk <;> simp [processUpdate, submit_model_update, et, ey, ev]

/-- C10 witness: two concrete payloads agreeing on the three known keys but
differing in an extra key and in user id produce the same new state. -/
theorem submit_depends_only_on_known_keys_witness :
    (([("text", (1 : ℚ)), ("extra", 5)] : List (String × ℚ)).lookup "text"
        = ([("text", (1 : ℚ))] : List (String × ℚ)).lookup "text") ∧
    (([("text", (1 : ℚ)), ("extra", 5)] : List (String × ℚ)).lookup "typing"
        = ([("text", (1 : ℚ))] : List (String × ℚ)).lookup "typing") ∧
    (([("text", (1 : ℚ)), ("extra", 5)] : List (String × ℚ)).lookup "voice"
        = ([("text", (1 : ℚ))] : List (String × ℚ)).lookup "voice") ∧
    (submit_model_update ⟨[("text", 1), ("extra", 5)], "alice"⟩ zeroNoise "t" initAgg []).state
      = (submit_model_update ⟨[("text", 1)], "bob"⟩ zeroNoise "t" initAgg []).state :=
  ⟨by with_unfolding_all decide, by with_unfolding_all decide, by with_unfolding_all decide,
   (submit_depends_only_on_known_keys [("text", 1), ("extra", 5)] [("text", 1)]
      "alice" "bob" (by with_unfolding_all decide) (by with_unfolding_all decide)
      (by with_unfolding_all decide) zeroNoise "t" initAgg []).1⟩

end HUSH
